import Mathlib

/-! # LI-OV580 stereo camera driver: error value, connection controller, frame pipeline

A shallow embedding of `src/LI_stereocamera.hpp`.

* Enumerators (`libusb_error`, `uvc_error_t`, `LI_error_t`) are integers, as
  the C++ code casts them freely to and from `int`.
* A C++ `throw` is an explicit result: every operation that can throw returns
  the state it leaves behind together with a flag (or `Signal`) saying whether
  control left by an exception.
* Calls into libusb, libuvc and OpenCV are recorded in a trace of `Call`s;
  what those libraries answer is supplied by an environment record.
-/

namespace LIStereo

/-! ## Error codes -/

/-- Success value of `libusb_error`; `libusb.h` (an external header, not part
of the repository) defines `LIBUSB_SUCCESS = 0`. -/
def LIBUSB_SUCCESS : Int := 0

/-- Success value of `uvc_error_t`; `libuvc.h` (an external header, not part
of the repository) defines `UVC_SUCCESS = 0`. -/
def UVC_SUCCESS : Int := 0

/-- Enumerator `LI_SUCCESS = 0` of `LI_error_t`. -/
def LI_SUCCESS : Int := 0
/-- Enumerator `LI_UNSUPPORTED_PLATFORM = 1` of `LI_error_t`. -/
def LI_UNSUPPORTED_PLATFORM : Int := 1
/-- Enumerator `LI_CAMERA_UNPLUGGED = 2` of `LI_error_t`. -/
def LI_CAMERA_UNPLUGGED : Int := 2
/-- Enumerator `LI_SUDO_NEEDED = 3` of `LI_error_t`. -/
def LI_SUDO_NEEDED : Int := 3
/-- Enumerator `LI_UNABLE_TO_ALLOCATE_FRAME = 4` of `LI_error_t`. -/
def LI_UNABLE_TO_ALLOCATE_FRAME : Int := 4
/-- Enumerator `LI_UNABLE_TO_CONVERT_FRAME = 5` of `LI_error_t`. -/
def LI_UNABLE_TO_CONVERT_FRAME : Int := 5
/-- Enumerator `LI_UNSUPPORTED_CAMERA_MODE = 6` of `LI_error_t`. -/
def LI_UNSUPPORTED_CAMERA_MODE : Int := 6
/-- Enumerator `LI_UNSPECIFIED = 99` of `LI_error_t`. -/
def LI_UNSPECIFIED : Int := 99

/-! ## `class LI_exception` -/

/-- The three private members of `LI_exception`. -/
structure LI_exception where
  code_usb : Int
  code_uvc : Int
  code_other : Int
  deriving DecidableEq, Repr

/-- How a call that may throw ended: it returned a value, or it threw. -/
inductive Signal (α : Type) where
  | returned (a : α)
  | thrown
  deriving DecidableEq, Repr

/-- Whether the call ended by a `throw`. -/
def Signal.isThrown {α : Type} : Signal α → Bool
  | Signal.returned _ => false
  | Signal.thrown => true

/-- The three error domains, one per overload of the loud `operator=`. -/
inductive Domain where
  | usb
  | uvc
  | other
  deriving DecidableEq, Repr

namespace LI_exception

/-- Default constructor `LI_exception()`: all three codes at success. -/
def fresh : LI_exception :=
  { code_usb := LIBUSB_SUCCESS, code_uvc := UVC_SUCCESS, code_other := LI_SUCCESS }

/-- Silent constructor `LI_exception(libusb_error)`. -/
def of_usb (error_code : Int) : LI_exception :=
  { fresh with code_usb := error_code }

/-- Silent constructor `LI_exception(uvc_error_t)`. -/
def of_uvc (error_code : Int) : LI_exception :=
  { fresh with code_uvc := error_code }

/-- Silent constructor `LI_exception(LI_error_t)`. -/
def of_other (error_code : Int) : LI_exception :=
  { fresh with code_other := error_code }

/-- Conversion `operator bool() const`. -/
def toBool (self : LI_exception) : Bool :=
  (LIBUSB_SUCCESS != self.code_usb) ||
  (UVC_SUCCESS != self.code_uvc) ||
  (LI_SUCCESS != self.code_other)

/-- Loud `bool operator=(libusb_error)`: store, then throw when the whole
value converts to `true`, else return that conversion. -/
def assign_usb (self : LI_exception) (error_code : Int) :
    LI_exception × Signal Bool :=
  let this := { self with code_usb := error_code }
  if this.toBool then (this, Signal.thrown)
  else (this, Signal.returned this.toBool)

/-- Loud `bool operator=(uvc_error_t)`. -/
def assign_uvc (self : LI_exception) (error_code : Int) :
    LI_exception × Signal Bool :=
  let this := { self with code_uvc := error_code }
  if this.toBool then (this, Signal.thrown)
  else (this, Signal.returned this.toBool)

/-- Loud `bool operator=(LI_error_t)`. -/
def assign_other (self : LI_exception) (error_code : Int) :
    LI_exception × Signal Bool :=
  let this := { self with code_other := error_code }
  if this.toBool then (this, Signal.thrown)
  else (this, Signal.returned this.toBool)

/-- The loud assignment selected by the static type of the right-hand side. -/
def assign (self : LI_exception) (d : Domain) (error_code : Int) :
    LI_exception × Signal Bool :=
  match d with
  | Domain.usb => self.assign_usb error_code
  | Domain.uvc => self.assign_uvc error_code
  | Domain.other => self.assign_other error_code

/-- Member function `error_category() const`. -/
def error_category (self : LI_exception) : String :=
  if LI_SUCCESS != self.code_other then "[LISTEREO]"
  else if UVC_SUCCESS != self.code_uvc then "[LIBUVC]"
  else if LIBUSB_SUCCESS != self.code_usb then "[LIBUSB]"
  else "[UNKNOWN]"

/-- Member function `error_code() const`. -/
def error_code (self : LI_exception) : Int :=
  if LI_SUCCESS != self.code_other then self.code_other
  else if UVC_SUCCESS != self.code_uvc then self.code_uvc
  else if LIBUSB_SUCCESS != self.code_usb then self.code_usb
  else 0

/-- The value with the code of domain `d` overwritten and the other two kept:
what the first statement of each `operator=` overload does. -/
def store (self : LI_exception) (d : Domain) (error_code : Int) : LI_exception :=
  match d with
  | Domain.usb => { self with code_usb := error_code }
  | Domain.uvc => { self with code_uvc := error_code }
  | Domain.other => { self with code_other := error_code }

/-- Number of domains whose code is not the success value. -/
def nonSuccessCount (self : LI_exception) : Nat :=
  (if LIBUSB_SUCCESS != self.code_usb then 1 else 0) +
  (if UVC_SUCCESS != self.code_uvc then 1 else 0) +
  (if LI_SUCCESS != self.code_other then 1 else 0)

/-- Apply a sequence of loud assignments, each to the value the previous one
left behind (a `throw` does not undo the store). -/
def assignAll (self : LI_exception) : List (Domain × Int) → LI_exception
  | [] => self
  | a :: rest => assignAll (self.assign a.1 a.2).1 rest

end LI_exception

/-! ## Collaborator calls and their answers -/

/-- One call into libusb, libuvc or OpenCV (or the Processing stage), with the
arguments the properties below look at. Pointers are natural numbers; a
pointer that may be `NULL` is an `Option`. -/
inductive Call where
  | uvc_get_device_list
  | uvc_get_device_descriptor (dev : Nat)
  | uvc_free_device_descriptor
  | uvc_free_device_list
  | uvc_ref_device (dev : Nat)
  | uvc_open (dev : Nat)
  | uvc_get_device (handle : Option Nat)
  | libusb_get_device (handle : Option Nat)
  | uvc_get_stream_ctrl_format_size (handle : Option Nat) (width height fps : Nat)
  | uvc_start_streaming (handle : Option Nat)
  | uvc_set_ae_mode (handle : Option Nat) (mode : Nat)
  | uvc_set_saturation (handle : Option Nat) (value : Nat)
  | uvc_stop_streaming (handle : Option Nat)
  | uvc_close (handle : Nat)
  | uvc_unref_device (dev : Nat)
  | uvc_exit
  | libusb_hotplug_deregister_callback
  | libusb_exit
  | uvc_allocate_frame (bytes : Nat)
  | uvc_yuyv2y
  | uvc_yuyv2uv
  | uvc_free_frame (buf : Nat)
  | process_frame
  | imshow (window : String)
  | cvWaitKey (ms : Nat)
  deriving DecidableEq, Repr

/-- One entry of the array `uvc_get_device_list` hands back, with what
`uvc_get_device_descriptor` answers for it. -/
structure DeviceEntry where
  /-- the `uvc_device_t*` stored in the list (never `NULL`) -/
  dev : Nat
  /-- return code of `uvc_get_device_descriptor` for this device -/
  descr_result : Int
  /-- field `idVendor` of the descriptor (a `uint16_t`) -/
  idVendor : Nat
  /-- field `idProduct` of the descriptor (a `uint16_t`) -/
  idProduct : Nat
  deriving DecidableEq, Repr

/-- What the libraries answer during one `update_connection`. Each field is
the answer to a call that `update_connection` makes at most once. -/
structure Event where
  /-- return code of `uvc_get_device_list` -/
  list_result : Int
  /-- the enumerated devices, in list order -/
  devices : List DeviceEntry
  /-- return code of `uvc_open` -/
  open_result : Int
  /-- the handle `uvc_open` writes on success -/
  handle : Nat
  /-- what `uvc_get_device(this->uvc_handle)` returns -/
  handle_device : Option Nat
  /-- what `libusb_get_device(uvc_get_libusb_handle(..))` returns -/
  usb_device : Option Nat
  /-- return code of `uvc_get_stream_ctrl_format_size` -/
  ctrl_result : Int
  /-- the stream control block written on successful negotiation -/
  ctrl : Nat
  /-- return code of `uvc_start_streaming` -/
  start_result : Int
  deriving DecidableEq, Repr

/-! ## `class LI_stereocamera` -/

/-- Compile-time constant `LI_stereocamera::WIDTH`. -/
def WIDTH : Nat := 640
/-- Compile-time constant `LI_stereocamera::HEIGHT`. -/
def HEIGHT : Nat := 480
/-- Compile-time constant `LI_stereocamera::FPS`. -/
def FPS : Nat := 30

/-- Data members of a constructed `LI_stereocamera`. The two library contexts
are left out: on a constructed object both are non-null, so the `assert`s on
them pass. `uvc_stream` is the content of the `uvc_stream_ctrl_t` block, `0`
standing for the all-zero block. -/
structure LI_stereocamera where
  connected : Bool
  usb_device : Option Nat
  uvc_device : Option Nat
  uvc_handle : Option Nat
  uvc_stream : Nat
  error : LI_exception
  deriving DecidableEq, Repr

/-- Result of running a member function: the object afterwards, the calls it
made in order, and whether it left by an exception. -/
structure Outcome where
  state : LI_stereocamera
  calls : List Call
  thrown : Bool
  deriving DecidableEq, Repr

/-- The device-search loop of `update_connection`: for each entry, fetch the
descriptor through a local loud `LI_exception`; a failure is caught and the
entry skipped; on success compare the ids with `2a0b:00f5`, free the
descriptor, and stop at the first match. Returns the entry at which the loop
broke (`found == true`), or `none` when it ran to the `NULL` terminator. -/
def scan_devices : List DeviceEntry → Option DeviceEntry × List Call
  | [] => (none, [])
  | d :: rest =>
    match (LI_exception.fresh.assign_uvc d.descr_result).2 with
    | Signal.thrown =>
      let r := scan_devices rest
      (r.1, Call.uvc_get_device_descriptor d.dev :: r.2)
    | Signal.returned _ =>
      if 0x2A0B == d.idVendor && 0x00F5 == d.idProduct then
        (some d, [Call.uvc_get_device_descriptor d.dev, Call.uvc_free_device_descriptor])
      else
        let r := scan_devices rest
        (r.1, Call.uvc_get_device_descriptor d.dev :: Call.uvc_free_device_descriptor :: r.2)

/-- Member function `on_connect(uvc_device_t*)`. The argument is the list
entry at which the search loop broke, hence non-null: the `NULL == uvc_device`
branch cannot be taken and has no counterpart here. -/
def on_connect (self : LI_stereocamera) (uvc_device : Nat) (env : Event) : Outcome :=
  -- this->uvc_device = uvc_device; uvc_ref_device(this->uvc_device);
  let s1 := { self with uvc_device := some uvc_device }
  let t1 := [Call.uvc_ref_device uvc_device, Call.uvc_open uvc_device]
  -- try { LI_exception result; result = uvc_open(..); } catch (..) { this->error = LI_SUDO_NEEDED; }
  let opened : LI_stereocamera × Bool :=
    match (LI_exception.fresh.assign_uvc env.open_result).2 with
    | Signal.returned _ => ({ s1 with uvc_handle := some env.handle }, false)
    | Signal.thrown =>
      let r := s1.error.assign_other LI_SUDO_NEEDED
      ({ s1 with error := r.1 }, r.2.isThrown)
  if opened.2 then { state := opened.1, calls := t1, thrown := true } else
  let s2 := opened.1
  -- if (this->uvc_device != uvc_get_device(this->uvc_handle)) this->error = LI_UNSPECIFIED;
  let t2 := t1 ++ [Call.uvc_get_device s2.uvc_handle]
  let checked : LI_stereocamera × Bool :=
    if s2.uvc_device != env.handle_device then
      let r := s2.error.assign_other LI_UNSPECIFIED
      ({ s2 with error := r.1 }, r.2.isThrown)
    else (s2, false)
  if checked.2 then { state := checked.1, calls := t2, thrown := true } else
  -- this->usb_device = libusb_get_device(uvc_get_libusb_handle(this->uvc_handle));
  let s3 := { checked.1 with usb_device := env.usb_device }
  let t3 := t2 ++ [Call.libusb_get_device s3.uvc_handle,
                   Call.uvc_get_stream_ctrl_format_size s3.uvc_handle WIDTH HEIGHT FPS]
  -- try { LI_exception result; result = uvc_get_stream_ctrl_format_size(..); }
  -- catch (..) { this->error = LI_UNSUPPORTED_CAMERA_MODE; }
  let negotiated : LI_stereocamera × Bool :=
    match (LI_exception.fresh.assign_uvc env.ctrl_result).2 with
    | Signal.returned _ => ({ s3 with uvc_stream := env.ctrl }, false)
    | Signal.thrown =>
      let r := s3.error.assign_other LI_UNSUPPORTED_CAMERA_MODE
      ({ s3 with error := r.1 }, r.2.isThrown)
  if negotiated.2 then { state := negotiated.1, calls := t3, thrown := true } else
  let s4 := negotiated.1
  -- this->error = uvc_start_streaming(..);
  let t4 := t3 ++ [Call.uvc_start_streaming s4.uvc_handle]
  let started := s4.error.assign_uvc env.start_result
  let s5 := { s4 with error := started.1 }
  if started.2.isThrown then { state := s5, calls := t4, thrown := true } else
  -- uvc_set_ae_mode(this->uvc_handle, 0); uvc_set_saturation(this->uvc_handle, 0xFFFF);
  { state := s5,
    calls := t4 ++ [Call.uvc_set_ae_mode s5.uvc_handle 0,
                    Call.uvc_set_saturation s5.uvc_handle 0xFFFF],
    thrown := false }

/-- Member function `on_disconnect()`. -/
def on_disconnect (self : LI_stereocamera) : Outcome :=
  -- uvc_stop_streaming(this->uvc_handle); memset(&this->uvc_stream, 0, ..);
  let t1 := [Call.uvc_stop_streaming self.uvc_handle]
  let s1 := { self with uvc_stream := 0 }
  -- if (NULL != this->uvc_handle) { uvc_close(..); this->uvc_handle = NULL; }
  let closed : LI_stereocamera × List Call :=
    match s1.uvc_handle with
    | some h => ({ s1 with uvc_handle := none }, t1 ++ [Call.uvc_close h])
    | none => (s1, t1)
  -- if (NULL != this->usb_device) this->usb_device = NULL;
  let s3 : LI_stereocamera :=
    match closed.1.usb_device with
    | some _ => { closed.1 with usb_device := none }
    | none => closed.1
  -- if (NULL != this->uvc_device) { uvc_unref_device(..); this->uvc_device = NULL; }
  match s3.uvc_device with
  | some d =>
    { state := { s3 with uvc_device := none },
      calls := closed.2 ++ [Call.uvc_unref_device d], thrown := false }
  | none => { state := s3, calls := closed.2, thrown := false }

/-- Member function `update_connection()`. A `throw` leaves through every
enclosing statement, so nothing after it runs (in particular neither
`this->connected = true` nor `uvc_free_device_list`). -/
def update_connection (self : LI_stereocamera) (env : Event) : Outcome :=
  -- this->error = uvc_get_device_list(this->uvc_context, &uvc_device_list);
  let listed := self.error.assign_uvc env.list_result
  let s1 := { self with error := listed.1 }
  let t1 := [Call.uvc_get_device_list]
  if listed.2.isThrown then { state := s1, calls := t1, thrown := true } else
  let scan := scan_devices env.devices
  let t2 := t1 ++ scan.2
  match scan.1 with
  | none =>
    -- found == false
    if false == s1.connected then
      { state := s1, calls := t2 ++ [Call.uvc_free_device_list], thrown := false }
    else
      let d := on_disconnect s1
      { state := { d.state with connected := false },
        calls := t2 ++ d.calls ++ [Call.uvc_free_device_list], thrown := false }
  | some entry =>
    -- found == true
    if true == s1.connected then
      { state := s1, calls := t2 ++ [Call.uvc_free_device_list], thrown := false }
    else
      let c := on_connect s1 entry.dev env
      if c.thrown then { state := c.state, calls := t2 ++ c.calls, thrown := true }
      else
        { state := { c.state with connected := true },
          calls := t2 ++ c.calls ++ [Call.uvc_free_device_list], thrown := false }

/-- The successive `update_connection` calls of a run: each records the object
before the call, the answers it got and its outcome; the next call starts from
the object the previous one left behind, whether or not it threw. -/
structure Step where
  before : LI_stereocamera
  event : Event
  result : Outcome
  deriving DecidableEq, Repr

/-- Run `update_connection` once per topology event, in order. -/
def steps (self : LI_stereocamera) : List Event → List Step
  | [] => []
  | e :: rest =>
    let r := update_connection self e
    { before := self, event := e, result := r } :: steps r.state rest

/-- Whether the step took the controller from Disconnected to Connected. -/
def Step.connects (st : Step) : Bool :=
  !st.before.connected && st.result.state.connected

/-- Whether the enumeration holds a device with ids `2a0b:00f5`. -/
def targetPresent (devices : List DeviceEntry) : Bool :=
  devices.any (fun d => d.idVendor == 0x2A0B && d.idProduct == 0x00F5)

/-- Whether every library call answered during this `update_connection`
succeeds: enumeration, every descriptor read, open (with the handle belonging
to the device that was opened), negotiation and start of streaming. -/
def Event.allSucceed (env : Event) : Bool :=
  env.list_result == UVC_SUCCESS &&
  env.devices.all (fun d => d.descr_result == UVC_SUCCESS) &&
  env.open_result == UVC_SUCCESS &&
  (match (scan_devices env.devices).1 with
   | some entry => env.handle_device == some entry.dev
   | none => true) &&
  env.ctrl_result == UVC_SUCCESS &&
  env.start_result == UVC_SUCCESS

/-- Whether the call is `uvc_open`. -/
def Call.isOpen : Call → Bool
  | Call.uvc_open _ => true
  | _ => false

/-- Number of `uvc_open` calls in a trace. -/
def openCount (calls : List Call) : Nat :=
  calls.countP Call.isOpen

/-- The calls that act on the device session: ref, open, negotiate, start and
stop of streaming, close, unref. -/
def Call.isSession : Call → Bool
  | Call.uvc_ref_device _ => true
  | Call.uvc_open _ => true
  | Call.uvc_get_stream_ctrl_format_size _ _ _ _ => true
  | Call.uvc_start_streaming _ => true
  | Call.uvc_stop_streaming _ => true
  | Call.uvc_close _ => true
  | Call.uvc_unref_device _ => true
  | _ => false

/-- Whether the call is `uvc_start_streaming`. -/
def Call.isStart : Call → Bool
  | Call.uvc_start_streaming _ => true
  | _ => false

/-- Whether the call left by an exception after it had called
`uvc_start_streaming` (the only statement that can throw from there on is the
assignment of that call's result). -/
def Outcome.failedAtStart (r : Outcome) : Bool :=
  r.thrown && r.calls.any Call.isStart

/-! ## Frame pipeline -/

/-- The fields of `uvc_frame` the callback reads (both `uint32_t`). -/
structure RawFrame where
  width : Nat
  height : Nat
  deriving DecidableEq, Repr

/-- What the libraries answer during one `frame_callback`. -/
structure FrameEnv where
  /-- first `uvc_allocate_frame`: the buffer, or `NULL` -/
  greyLeft : Option Nat
  /-- second `uvc_allocate_frame`: the buffer, or `NULL` -/
  greyRight : Option Nat
  /-- return code of `uvc_yuyv2y` -/
  y_result : Int
  /-- return code of `uvc_yuyv2uv` -/
  uv_result : Int
  /-- whether `cascade.load(cascadeName)` succeeds -/
  cascadeLoaded : Bool
  /-- whether `nestedCascade.load(nestedCascadeName)` succeeds -/
  nestedLoaded : Bool
  deriving DecidableEq, Repr

/-- Member function `detectAndDraw`: all it does is OpenCV drawing on the
image; its only `return` statement returns `LI_SUCCESS`. -/
def detectAndDraw : Int := LI_SUCCESS

/-- Member function `process_frame`. -/
def process_frame (cascadeLoaded nestedLoaded : Bool) : Int :=
  if !cascadeLoaded || !nestedLoaded then LI_UNSPECIFIED
  else
    let result1 := detectAndDraw
    if LI_SUCCESS != result1 then result1
    else
      let result2 := detectAndDraw
      if LI_SUCCESS != result2 then result2
      else LI_SUCCESS

/-- Static member function `frame_callback(uvc_frame*, void*)`, with `self`
the object behind `user_data`. The write to `frame->frame_format` is not
recorded. The allocation size is the `uint32_t` product of width and height. -/
def frame_callback (frame : RawFrame) (self : LI_stereocamera) (env : FrameEnv) : Outcome :=
  let bytes := (frame.width * frame.height) % 2 ^ 32
  let t1 := [Call.uvc_allocate_frame bytes, Call.uvc_allocate_frame bytes]
  match env.greyLeft, env.greyRight with
  | some greyLeft, some greyRight =>
    -- LI_exception resultLeft(uvc_yuyv2y(..)); LI_exception resultRight(uvc_yuyv2uv(..));
    let resultLeft := LI_exception.of_uvc env.y_result
    let resultRight := LI_exception.of_uvc env.uv_result
    let t2 := t1 ++ [Call.uvc_yuyv2y, Call.uvc_yuyv2uv]
    if resultLeft.toBool || resultRight.toBool then
      -- uvc_free_frame(greyLeft); uvc_free_frame(greyRight);
      -- self->error = LI_UNABLE_TO_CONVERT_FRAME; return;
      let r := self.error.assign_other LI_UNABLE_TO_CONVERT_FRAME
      { state := { self with error := r.1 },
        calls := t2 ++ [Call.uvc_free_frame greyLeft, Call.uvc_free_frame greyRight],
        thrown := r.2.isThrown }
    else
      -- self->error = self->process_frame(left, right);
      let t3 := t2 ++ [Call.process_frame]
      let r := self.error.assign_other (process_frame env.cascadeLoaded env.nestedLoaded)
      let s1 := { self with error := r.1 }
      if r.2.isThrown then { state := s1, calls := t3, thrown := true }
      else
        -- imshow, imshow, cvWaitKey(10); uvc_free_frame(greyLeft); uvc_free_frame(greyRight);
        { state := s1,
          calls := t3 ++ [Call.imshow "Left", Call.imshow "Right", Call.cvWaitKey 10,
                          Call.uvc_free_frame greyLeft, Call.uvc_free_frame greyRight],
          thrown := false }
  | _, _ =>
    -- if (!greyLeft || !greyRight) { self->error = LI_UNABLE_TO_ALLOCATE_FRAME; return; }
    let r := self.error.assign_other LI_UNABLE_TO_ALLOCATE_FRAME
    { state := { self with error := r.1 }, calls := t1, thrown := r.2.isThrown }

/-- Whether both allocations, both conversions and the Processing stage
succeed in this invocation. -/
def FrameEnv.allSucceed (env : FrameEnv) : Bool :=
  env.greyLeft.isSome && env.greyRight.isSome &&
  env.y_result == UVC_SUCCESS && env.uv_result == UVC_SUCCESS &&
  process_frame env.cascadeLoaded env.nestedLoaded == LI_SUCCESS

/-- Number of `uvc_free_frame` calls on buffer `buf` in a trace. -/
def freeCount (buf : Nat) (calls : List Call) : Nat :=
  calls.count (Call.uvc_free_frame buf)

/-- Number of `uvc_free_frame` calls in a trace, whatever the buffer. -/
def freeTotal (calls : List Call) : Nat :=
  calls.countP (fun c => match c with
    | Call.uvc_free_frame _ => true
    | _ => false)

/-- The calls of one frame that go to the conversion primitives, the
Processing stage or the presentation. -/
def Call.isFrameWork : Call → Bool
  | Call.uvc_yuyv2y => true
  | Call.uvc_yuyv2uv => true
  | Call.process_frame => true
  | Call.imshow _ => true
  | Call.cvWaitKey _ => true
  | _ => false

/-- Destructor `~LI_stereocamera()`: `on_disconnect`, then `uvc_exit` and, for
libusb, deregistration of the hotplug callback and `libusb_exit`. On a
constructed object both library contexts are non-null, so both guards pass. -/
def destructor (self : LI_stereocamera) : Outcome :=
  let d := on_disconnect self
  { state := d.state,
    calls := d.calls ++ [Call.uvc_exit, Call.libusb_hotplug_deregister_callback,
                         Call.libusb_exit],
    thrown := false }

/-- Number of `uvc_close` calls on handle `h` in a trace. -/
def closeCount (h : Nat) (calls : List Call) : Nat :=
  calls.count (Call.uvc_close h)

/-- Number of `uvc_unref_device` calls on device `d` in a trace. -/
def unrefCount (d : Nat) (calls : List Call) : Nat :=
  calls.count (Call.uvc_unref_device d)

/-- Whether the call is `uvc_close` or `uvc_unref_device`, the two calls that
release a session resource. -/
def Call.isRelease : Call → Bool
  | Call.uvc_close _ => true
  | Call.uvc_unref_device _ => true
  | _ => false

/-- Whether the call is `uvc_get_stream_ctrl_format_size`. -/
def Call.isNegotiate : Call → Bool
  | Call.uvc_get_stream_ctrl_format_size _ _ _ _ => true
  | _ => false

/-- Whether the call is one of the two tuning calls, `uvc_set_ae_mode` or
`uvc_set_saturation`. -/
def Call.isTuning : Call → Bool
  | Call.uvc_set_ae_mode _ _ => true
  | Call.uvc_set_saturation _ _ => true
  | _ => false

/-- Whether some sub-step of the connect sequence for device `dev` fails:
`uvc_open`, the check that the handle belongs to `dev`, the negotiation, or
`uvc_start_streaming`. -/
def Event.connectFails (env : Event) (dev : Nat) : Bool :=
  env.open_result != UVC_SUCCESS || env.handle_device != some dev ||
  env.ctrl_result != UVC_SUCCESS || env.start_result != UVC_SUCCESS

/-! ## Sample inputs -/

/-- A controller as the constructor leaves it before its first
`update_connection`: Disconnected, no device, no handle, a clean slot. -/
def demoController : LI_stereocamera :=
  { connected := false, usb_device := none, uvc_device := none, uvc_handle := none,
    uvc_stream := 0, error := LI_exception.fresh }

/-- A list entry for the stereo camera (`2a0b:00f5`). -/
def targetEntry : DeviceEntry :=
  { dev := 7, descr_result := 0, idVendor := 0x2A0B, idProduct := 0x00F5 }

/-- A list entry for some other video device. -/
def otherEntry : DeviceEntry :=
  { dev := 3, descr_result := 0, idVendor := 0x046D, idProduct := 0x0825 }

/-- The camera is attached and every library call succeeds. -/
def plugEvent : Event :=
  { list_result := 0, devices := [otherEntry, targetEntry], open_result := 0,
    handle := 11, handle_device := some 7, usb_device := some 5,
    ctrl_result := 0, ctrl := 1, start_result := 0 }

/-- The camera is gone from the enumeration. -/
def unplugEvent : Event :=
  { plugEvent with devices := [otherEntry] }

/-- The camera is attached but `uvc_open` fails (`UVC_ERROR_ACCESS`, -3). -/
def openFailsEvent : Event :=
  { plugEvent with open_result := -3 }

/-- The camera is attached but the negotiation fails
(`UVC_ERROR_INVALID_MODE`, -51). -/
def negotiateFailsEvent : Event :=
  { plugEvent with ctrl_result := -51 }

/-- The camera is attached but `uvc_start_streaming` fails
(`UVC_ERROR_BUSY`, -6). -/
def startFailsEvent : Event :=
  { plugEvent with start_result := -6 }

/-- The camera is attached but `uvc_get_device_list` fails
(`UVC_ERROR_NO_MEM`, -11). -/
def listFailsEvent : Event :=
  { plugEvent with list_result := -11 }

/-- The controller after a successful connect: Connected and streaming. -/
def streamingController : LI_stereocamera :=
  (update_connection demoController plugEvent).state

/-- A 640x480 raw frame. -/
def demoFrame : RawFrame := { width := 640, height := 480 }

/-- Both allocations, both conversions and the Processing stage succeed. -/
def goodFrameEnv : FrameEnv :=
  { greyLeft := some 100, greyRight := some 200, y_result := 0, uv_result := 0,
    cascadeLoaded := true, nestedLoaded := true }

/-- The second allocation returns `NULL`. -/
def allocFailsFrameEnv : FrameEnv :=
  { goodFrameEnv with greyRight := none }

/-- The cascade file cannot be loaded, so `process_frame` returns
`LI_UNSPECIFIED`. -/
def processFailsFrameEnv : FrameEnv :=
  { goodFrameEnv with cascadeLoaded := false }

/-! ## Theorems on the error value: rendering and loud assignment -/

theorem toBool_false_iff (e : LI_exception) :
    e.toBool = false ↔ e.code_usb = 0 ∧ e.code_uvc = 0 ∧ e.code_other = 0 := by
  obtain ⟨a, b, c⟩ := e
  simp only [LI_exception.toBool, LIBUSB_SUCCESS, UVC_SUCCESS, LI_SUCCESS,
    Bool.or_eq_false_iff, bne_eq_false_iff_eq]
  constructor
  · rintro ⟨⟨h1, h2⟩, h3⟩
    exact ⟨h1.symm, h2.symm, h3.symm⟩
  · rintro ⟨h1, h2, h3⟩
    exact ⟨⟨h1.symm, h2.symm⟩, h3.symm⟩

theorem assign_fst (e : LI_exception) (d : Domain) (c : Int) :
    (e.assign d c).1 = e.store d c := by
  cases d <;> simp only [LI_exception.assign, LI_exception.assign_usb,
    LI_exception.assign_uvc, LI_exception.assign_other, LI_exception.store] <;>
    split <;> rfl

theorem assign_snd (e : LI_exception) (d : Domain) (c : Int) :
    (e.assign d c).2 =
      if (e.store d c).toBool then Signal.thrown else Signal.returned false := by
  cases d <;> simp only [LI_exception.assign, LI_exception.assign_usb,
    LI_exception.assign_uvc, LI_exception.assign_other, LI_exception.store] <;>
    split <;> simp_all

theorem assignAll_append (e : LI_exception) (xs ys : List (Domain × Int)) :
    e.assignAll (xs ++ ys) = (e.assignAll xs).assignAll ys := by
  induction xs generalizing e with
  | nil => rfl
  | cons a rest ih =>
    show ((e.assign a.1 a.2).1).assignAll (rest ++ ys) = _
    rw [ih]; rfl

/-- C1: for every triple of codes `error_category` reports by the precedence
application > device > transport: the application tag whenever the application
code is non-success (so also when all three are), else the device tag when the
device code is non-success, else the transport tag when the transport code is
non-success (transport code 5 alone gives the transport tag), else the success
tag; and the four tags are pairwise distinct. -/
theorem error_category_precedence (e : LI_exception) :
    (e.code_other ≠ LI_SUCCESS → e.error_category = "[LISTEREO]") ∧
    (e.code_other = LI_SUCCESS → e.code_uvc ≠ UVC_SUCCESS →
      e.error_category = "[LIBUVC]") ∧
    (e.code_other = LI_SUCCESS → e.code_uvc = UVC_SUCCESS →
      e.code_usb ≠ LIBUSB_SUCCESS → e.error_category = "[LIBUSB]") ∧
    (e.toBool = false → e.error_category = "[UNKNOWN]") ∧
    (LI_exception.mk 5 UVC_SUCCESS LI_SUCCESS).error_category = "[LIBUSB]" ∧
    ("[LISTEREO]" ≠ "[LIBUVC]" ∧ "[LISTEREO]" ≠ "[LIBUSB]" ∧ "[LIBUVC]" ≠ "[LIBUSB]") ∧
    ("[LISTEREO]" ≠ "[UNKNOWN]" ∧ "[LIBUVC]" ≠ "[UNKNOWN]" ∧ "[LIBUSB]" ≠ "[UNKNOWN]") := by
  rw [toBool_false_iff]
  refine ⟨?_, ?_, ?_, ?_, by decide, by decide, by decide⟩
  all_goals
    obtain ⟨a, b, c⟩ := e
    simp only [LI_exception.error_category, LI_SUCCESS, UVC_SUCCESS, LIBUSB_SUCCESS,
      bne_iff_ne, ne_eq]
  · intro h
    have hc : ¬ 0 = c := fun h2 => h h2.symm
    simp [hc]
  · intro h1 h2
    have hb : ¬ 0 = b := fun h3 => h2 h3.symm
    simp [h1, hb]
  · intro h1 h2 h3
    have ha : ¬ 0 = a := fun h4 => h3 h4.symm
    simp [h1, h2, ha]
  · rintro ⟨h1, h2, h3⟩
    simp [h1, h2, h3]

/-- Witness of C1: with all three codes non-success the application tag is
reported. -/
theorem error_category_precedence_witness :
    (LI_exception.mk 5 (-1) 3).error_category = "[LISTEREO]" :=
  (error_category_precedence (LI_exception.mk 5 (-1) 3)).1 (by decide)

/-- C2: `error_code` is 0 on a success value and otherwise the code of the
winning domain under application > device > transport, the same domain whose
tag `error_category` reports; it is 0 exactly when the value is success. -/
theorem error_code_winning_domain (e : LI_exception) :
    (e.toBool = false → e.error_code = 0) ∧
    (e.code_other ≠ LI_SUCCESS →
      e.error_code = e.code_other ∧ e.error_category = "[LISTEREO]") ∧
    (e.code_other = LI_SUCCESS → e.code_uvc ≠ UVC_SUCCESS →
      e.error_code = e.code_uvc ∧ e.error_category = "[LIBUVC]") ∧
    (e.code_other = LI_SUCCESS → e.code_uvc = UVC_SUCCESS →
      e.code_usb ≠ LIBUSB_SUCCESS →
      e.error_code = e.code_usb ∧ e.error_category = "[LIBUSB]") ∧
    (e.error_code = 0 ↔ e.toBool = false) := by
  rw [toBool_false_iff]
  obtain ⟨a, b, c⟩ := e
  simp only [LI_exception.error_code, LI_exception.error_category,
    LI_SUCCESS, UVC_SUCCESS, LIBUSB_SUCCESS, bne_iff_ne, ne_eq]
  by_cases hc : 0 = c
  · subst hc
    by_cases hb : 0 = b
    · subst hb
      by_cases ha : 0 = a
      · subst ha; simp
      · have ha2 : ¬ a = 0 := fun h => ha h.symm
        simp [ha, ha2]
    · have hb2 : ¬ b = 0 := fun h => hb h.symm
      simp [hb, hb2]
  · have hc2 : ¬ c = 0 := fun h => hc h.symm
    simp [hc, hc2]

/-- Witness of C2: device code -6 alone is the reported code. -/
theorem error_code_winning_domain_witness :
    (LI_exception.mk 0 (-6) 0).error_code = (LI_exception.mk 0 (-6) 0).code_uvc ∧
    (LI_exception.mk 0 (-6) 0).error_category = "[LIBUVC]" :=
  (error_code_winning_domain (LI_exception.mk 0 (-6) 0)).2.2.1 (by decide) (by decide)

/-- C3: a loud assignment to any domain stores the code (keeping the other two)
and throws if and only if the value after the store is non-success; when it
does not throw it returns `false` and the value is success. -/
theorem assign_throws_iff_failure (e : LI_exception) (d : Domain) (c : Int) :
    (e.assign d c).1 = e.store d c ∧
    ((e.assign d c).2 = Signal.thrown ↔ (e.assign d c).1.toBool = true) ∧
    ((e.assign d c).2 ≠ Signal.thrown →
      (e.assign d c).2 = Signal.returned false ∧ (e.assign d c).1.toBool = false) := by
  rw [assign_fst, assign_snd]
  refine ⟨rfl, ?_, ?_⟩
  · by_cases h : (e.store d c).toBool = true <;> simp [h]
  · by_cases h : (e.store d c).toBool = true <;> simp [h]

/-- Witness of C3: assigning the success code to the only failing domain
returns `false` and leaves a success value. -/
theorem assign_throws_iff_failure_witness :
    ((LI_exception.mk 0 (-1) 0).assign Domain.uvc 0).2 = Signal.returned false ∧
    ((LI_exception.mk 0 (-1) 0).assign Domain.uvc 0).1.toBool = false :=
  (assign_throws_iff_failure (LI_exception.mk 0 (-1) 0) Domain.uvc 0).2.2 (by decide)

/-- C4 as stated fails: assigning transport code 5 and then device code -1 to
a fresh value leaves two domains non-success. -/
theorem assignAll_two_domains_fail :
    ¬ ((LI_exception.fresh.assignAll [(Domain.usb, 5), (Domain.uvc, -1)]).nonSuccessCount
        ≤ 1) := by
  decide

/-- C4 amended: along any sequence of assignments on a fresh value, an
assignment overwrites the code of its own domain only and keeps the other two;
hence at most one domain is non-success after it whenever the value was
success just before it. -/
theorem assignAll_overwrites_own_domain (pre : List (Domain × Int)) (d : Domain) (c : Int) :
    LI_exception.fresh.assignAll (pre ++ [(d, c)])
      = (LI_exception.fresh.assignAll pre).store d c ∧
    ((LI_exception.fresh.assignAll pre).toBool = false →
      (LI_exception.fresh.assignAll (pre ++ [(d, c)])).nonSuccessCount ≤ 1) := by
  have h1 : LI_exception.fresh.assignAll (pre ++ [(d, c)])
      = (LI_exception.fresh.assignAll pre).store d c := by
    rw [assignAll_append]
    simp only [LI_exception.assignAll, assign_fst]
  refine ⟨h1, fun h => ?_⟩
  rw [h1]
  obtain ⟨ha, hb, hc⟩ := (toBool_false_iff _).1 h
  cases d <;>
    simp only [LI_exception.store, LI_exception.nonSuccessCount, ha, hb, hc,
      LIBUSB_SUCCESS, UVC_SUCCESS, LI_SUCCESS, bne_self_eq_false, Bool.false_eq_true,
      if_false, Nat.zero_add, Nat.add_zero] <;>
    split <;> decide

/-- Witness of C4 amended: after a failed and then cleared device code, a
transport failure is the only non-success domain. -/
theorem assignAll_overwrites_own_domain_witness :
    (LI_exception.fresh.assignAll
      ([(Domain.uvc, -1), (Domain.uvc, 0)] ++ [(Domain.usb, 5)])).nonSuccessCount ≤ 1 :=
  (assignAll_overwrites_own_domain [(Domain.uvc, -1), (Domain.uvc, 0)] Domain.usb 5).2
    (by decide)

/-! ## Theorems on the connection controller -/

theorem assign_uvc_fresh_zero :
    LI_exception.fresh.assign_uvc 0 = (LI_exception.fresh, Signal.returned false) := by
  decide

/-- The search loop makes no session call and, in particular, no `uvc_open`. -/
theorem scan_devices_no_session (ds : List DeviceEntry) :
    ∀ c ∈ (scan_devices ds).2, c.isSession = false := by
  induction ds with
  | nil => simp [scan_devices]
  | cons d rest ih =>
    unfold scan_devices
    split
    · intro c hc
      simp only [List.mem_cons] at hc
      rcases hc with rfl | hc
      · rfl
      · exact ih c hc
    · split
      · intro c hc
        simp only [List.mem_cons, List.mem_singleton] at hc
        rcases hc with rfl | rfl | hc
        · rfl
        · rfl
        · simp at hc
      · intro c hc
        simp only [List.mem_cons] at hc
        rcases hc with rfl | rfl | hc
        · rfl
        · rfl
        · exact ih c hc

theorem isOpen_le_isSession (c : Call) (h : c.isSession = false) : c.isOpen = false := by
  cases c <;> simp_all [Call.isSession, Call.isOpen]

theorem openCount_scan_devices (ds : List DeviceEntry) :
    openCount (scan_devices ds).2 = 0 := by
  unfold openCount
  rw [List.countP_eq_zero]
  intro c hc
  simp [isOpen_le_isSession c (scan_devices_no_session ds c hc)]

/-- When every descriptor read succeeds, the loop finds an entry exactly when
the enumeration holds the target ids. -/
theorem scan_devices_isSome (ds : List DeviceEntry)
    (h : ∀ d ∈ ds, d.descr_result = UVC_SUCCESS) :
    (scan_devices ds).1.isSome = targetPresent ds := by
  induction ds with
  | nil => rfl
  | cons d rest ih =>
    have hd : d.descr_result = 0 := h d (List.mem_cons_self _ _)
    have ih2 := ih (fun x hx => h x (List.mem_cons_of_mem _ hx))
    unfold scan_devices
    rw [hd, assign_uvc_fresh_zero]
    simp only [targetPresent, List.any_cons] at ih2 ⊢
    by_cases hm : (0x2A0B == d.idVendor && 0x00F5 == d.idProduct) = true
    · rw [if_pos hm]
      simp only [Bool.and_eq_true, beq_iff_eq] at hm
      simp [← hm.1, ← hm.2]
    · rw [if_neg hm]
      simp only [Bool.and_eq_true, beq_iff_eq, not_and] at hm
      rw [ih2]
      have : (d.idVendor == 0x2A0B && d.idProduct == 0x00F5) = false := by
        simp only [Bool.and_eq_false_iff, beq_eq_false_iff_ne, ne_eq]
        by_cases hv : d.idVendor = 0x2A0B
        · right; intro hp; exact hm hv.symm hp.symm
        · left; exact hv
      rw [this]; rfl

/-- With a clean slot and every sub-step succeeding, `on_connect` opens,
negotiates and starts streaming, and leaves the slot clean. -/
theorem on_connect_all_succeed (s : LI_stereocamera) (dev : Nat) (env : Event)
    (hs : s.error = LI_exception.fresh)
    (h1 : env.open_result = UVC_SUCCESS) (h2 : env.handle_device = some dev)
    (h3 : env.ctrl_result = UVC_SUCCESS) (h4 : env.start_result = UVC_SUCCESS) :
    on_connect s dev env =
      { state := { s with uvc_device := some dev, uvc_handle := some env.handle,
                          usb_device := env.usb_device, uvc_stream := env.ctrl },
        calls := [Call.uvc_ref_device dev, Call.uvc_open dev,
                  Call.uvc_get_device (some env.handle),
                  Call.libusb_get_device (some env.handle),
                  Call.uvc_get_stream_ctrl_format_size (some env.handle) WIDTH HEIGHT FPS,
                  Call.uvc_start_streaming (some env.handle),
                  Call.uvc_set_ae_mode (some env.handle) 0,
                  Call.uvc_set_saturation (some env.handle) 0xFFFF],
        thrown := false } := by
  obtain ⟨c, ud, vd, vh, vs, err⟩ := s
  simp only at hs
  subst hs
  simp only [UVC_SUCCESS] at h1 h3 h4
  simp [on_connect, h1, h2, h3, h4, assign_uvc_fresh_zero, Signal.isThrown]

theorem openCount_on_disconnect (s : LI_stereocamera) :
    openCount (on_disconnect s).calls = 0 := by
  obtain ⟨c, ud, vd, vh, vs, err⟩ := s
  cases ud <;> cases vd <;> cases vh <;> simp [on_disconnect, openCount, Call.isOpen]

theorem on_disconnect_error (s : LI_stereocamera) :
    (on_disconnect s).state.error = s.error := by
  obtain ⟨c, ud, vd, vh, vs, err⟩ := s
  cases ud <;> cases vd <;> cases vh <;> simp [on_disconnect]

/-- One `update_connection` from a clean slot with every call succeeding. -/
theorem update_connection_all_succeed (s : LI_stereocamera) (env : Event)
    (hs : s.error = LI_exception.fresh) (he : env.allSucceed = true) :
    (update_connection s env).thrown = false ∧
    (update_connection s env).state.error = LI_exception.fresh ∧
    (update_connection s env).state.connected = targetPresent env.devices ∧
    openCount (update_connection s env).calls =
      (if !s.connected && (update_connection s env).state.connected then 1 else 0) := by
  simp only [Event.allSucceed, Bool.and_eq_true, beq_iff_eq, List.all_eq_true] at he
  obtain ⟨⟨⟨⟨⟨hl, hd⟩, ho⟩, hh⟩, hc⟩, hst⟩ := he
  have hscan := scan_devices_isSome env.devices hd
  have hcnt := openCount_scan_devices env.devices
  simp only [UVC_SUCCESS] at hl
  unfold update_connection
  rw [hs, hl, assign_uvc_fresh_zero]
  simp only [Signal.isThrown, Bool.false_eq_true, if_false]
  rw [← hscan]
  cases hsc : (scan_devices env.devices).1 with
  | none =>
    simp only [Option.isSome_none]
    cases hcn : s.connected
    · simp [openCount, List.countP_append, Call.isOpen] at hcnt ⊢
      exact hcnt
    · have h1 := openCount_on_disconnect { s with error := LI_exception.fresh }
      have h2 := on_disconnect_error { s with error := LI_exception.fresh }
      simp [hcn] at h1 h2
      simp [openCount, List.countP_append, Call.isOpen, hcn] at hcnt h1 ⊢
      exact ⟨h2, hcnt, h1⟩
  | some entry =>
    rw [hsc] at hh
    simp only [beq_iff_eq] at hh
    simp only [Option.isSome_some]
    cases hcn : s.connected
    · have hon := on_connect_all_succeed
        { s with error := LI_exception.fresh } entry.dev env rfl ho hh hc hst
      simp only [hcn] at hon
      simp only [hon]
      simp [openCount, List.countP_append, Call.isOpen, hcn] at hcnt ⊢
      exact hcnt
    · simp [openCount, List.countP_append, Call.isOpen, hcn] at hcnt ⊢
      exact hcnt

theorem steps_map_event (s : LI_stereocamera) (es : List Event) :
    (steps s es).map Step.event = es := by
  induction es generalizing s with
  | nil => rfl
  | cons e rest ih => simp [steps, ih]

/-- C5: along every sequence of topology events in which every library call
succeeds, run from a controller with a clean error slot (in particular one that
starts Disconnected), there is one `update_connection` per event, none throws,
after each the controller is Connected exactly when that call enumerated a
device with ids `2a0b:00f5`, and `uvc_open` is issued exactly once by each call
that goes from Disconnected to Connected and by no other call, so the number
of opens along the run equals the number of such transitions. -/
theorem update_connection_tracks_target (s : LI_stereocamera) (es : List Event)
    (_hconn : s.connected = false) (herr : s.error = LI_exception.fresh)
    (hall : ∀ e ∈ es, e.allSucceed = true) :
    (steps s es).map Step.event = es ∧
    (∀ st ∈ steps s es,
      st.result.thrown = false ∧
      (st.result.state.connected = true ↔ targetPresent st.event.devices = true) ∧
      openCount st.result.calls = (if st.connects then 1 else 0)) ∧
    ((steps s es).map (fun st => openCount st.result.calls)).sum
      = (steps s es).countP Step.connects := by
  refine ⟨steps_map_event s es, ?_⟩
  clear _hconn
  induction es generalizing s with
  | nil => simp [steps]
  | cons e rest ih =>
    obtain ⟨h1, h2, h3, h4⟩ :=
      update_connection_all_succeed s e herr (hall e (List.mem_cons_self _ _))
    obtain ⟨ih1, ih2⟩ :=
      ih (update_connection s e).state h2 (fun x hx => hall x (List.mem_cons_of_mem _ hx))
    have hstep : openCount (update_connection s e).calls =
        (if (Step.mk s e (update_connection s e)).connects then 1 else 0) := by
      rw [h4]; rfl
    constructor
    · intro st hst
      simp only [steps, List.mem_cons] at hst
      rcases hst with rfl | hst
      · refine ⟨h1, ?_, hstep⟩
        simp only [h3]
      · exact ih1 st hst
    · simp only [steps, List.map_cons, List.sum_cons, List.countP_cons, ih2, hstep]
      omega

/-- Witness of C5: along plug, plug again, unplug, from the constructed
controller, the third call (the unplug) does not throw, ends Disconnected as
its enumeration lacks the target, and issues no open. -/
theorem update_connection_tracks_target_witness :
    (update_connection streamingController unplugEvent).thrown = false ∧
    ((update_connection streamingController unplugEvent).state.connected = true ↔
      targetPresent unplugEvent.devices = true) ∧
    openCount (update_connection streamingController unplugEvent).calls = 0 :=
  (update_connection_tracks_target demoController [plugEvent, plugEvent, unplugEvent]
    rfl rfl (by decide)).2.1
    { before := streamingController, event := unplugEvent,
      result := update_connection streamingController unplugEvent } (by decide)

theorem assign_uvc_fresh_ne (c : Int) (h : c ≠ 0) :
    LI_exception.fresh.assign_uvc c = ({ LI_exception.fresh with code_uvc := c }, Signal.thrown) := by
  have h2 : ¬ 0 = c := fun h3 => h h3.symm
  simp [LI_exception.assign_uvc, LI_exception.toBool, LI_exception.fresh, UVC_SUCCESS,
    LIBUSB_SUCCESS, LI_SUCCESS, h2]

theorem assign_other_fresh_ne (c : Int) (h : c ≠ 0) :
    LI_exception.fresh.assign_other c
      = ({ LI_exception.fresh with code_other := c }, Signal.thrown) := by
  have h2 : ¬ 0 = c := fun h3 => h h3.symm
  simp [LI_exception.assign_other, LI_exception.toBool, LI_exception.fresh, UVC_SUCCESS,
    LIBUSB_SUCCESS, LI_SUCCESS, h2]

/-- Closed form of `on_connect` entered with a clean slot: the first failing
sub-step records its code and throws, later sub-steps are not run. -/
theorem on_connect_fresh (s : LI_stereocamera) (dev : Nat) (env : Event)
    (hs : s.error = LI_exception.fresh) :
    on_connect s dev env =
      if env.open_result ≠ 0 then
        { state := { s with uvc_device := some dev,
                            error := { LI_exception.fresh with code_other := LI_SUDO_NEEDED } },
          calls := [Call.uvc_ref_device dev, Call.uvc_open dev], thrown := true }
      else if env.handle_device ≠ some dev then
        { state := { s with uvc_device := some dev, uvc_handle := some env.handle,
                            error := { LI_exception.fresh with code_other := LI_UNSPECIFIED } },
          calls := [Call.uvc_ref_device dev, Call.uvc_open dev,
                    Call.uvc_get_device (some env.handle)], thrown := true }
      else if env.ctrl_result ≠ 0 then
        { state := { s with uvc_device := some dev, uvc_handle := some env.handle,
                            usb_device := env.usb_device,
                            error := { LI_exception.fresh with
                                       code_other := LI_UNSUPPORTED_CAMERA_MODE } },
          calls := [Call.uvc_ref_device dev, Call.uvc_open dev,
                    Call.uvc_get_device (some env.handle),
                    Call.libusb_get_device (some env.handle),
                    Call.uvc_get_stream_ctrl_format_size (some env.handle) WIDTH HEIGHT FPS],
          thrown := true }
      else if env.start_result ≠ 0 then
        { state := { s with uvc_device := some dev, uvc_handle := some env.handle,
                            usb_device := env.usb_device, uvc_stream := env.ctrl,
                            error := { LI_exception.fresh with code_uvc := env.start_result } },
          calls := [Call.uvc_ref_device dev, Call.uvc_open dev,
                    Call.uvc_get_device (some env.handle),
                    Call.libusb_get_device (some env.handle),
                    Call.uvc_get_stream_ctrl_format_size (some env.handle) WIDTH HEIGHT FPS,
                    Call.uvc_start_streaming (some env.handle)],
          thrown := true }
      else
        { state := { s with uvc_device := some dev, uvc_handle := some env.handle,
                            usb_device := env.usb_device, uvc_stream := env.ctrl },
          calls := [Call.uvc_ref_device dev, Call.uvc_open dev,
                    Call.uvc_get_device (some env.handle),
                    Call.libusb_get_device (some env.handle),
                    Call.uvc_get_stream_ctrl_format_size (some env.handle) WIDTH HEIGHT FPS,
                    Call.uvc_start_streaming (some env.handle),
                    Call.uvc_set_ae_mode (some env.handle) 0,
                    Call.uvc_set_saturation (some env.handle) 0xFFFF],
          thrown := false } := by
  obtain ⟨c, ud, vd, vh, vs, err⟩ := s
  simp only at hs
  subst hs
  by_cases h1 : env.open_result = 0
  · by_cases h2 : env.handle_device = some dev
    · by_cases h3 : env.ctrl_result = 0
      · by_cases h4 : env.start_result = 0
        · simp [on_connect, h1, h2, h3, h4, assign_uvc_fresh_zero, Signal.isThrown]
        · simp [on_connect, h1, h2, h3, h4, assign_uvc_fresh_zero, assign_uvc_fresh_ne,
            Signal.isThrown]
      · simp [on_connect, h1, h2, h3, assign_uvc_fresh_zero, assign_uvc_fresh_ne,
          assign_other_fresh_ne, LI_UNSUPPORTED_CAMERA_MODE, Signal.isThrown]
    · have h2b : ¬ some dev = env.handle_device := fun h => h2 h.symm
      simp [on_connect, h1, h2, h2b, assign_uvc_fresh_zero, assign_uvc_fresh_ne,
        assign_other_fresh_ne, LI_UNSPECIFIED, Signal.isThrown]
  · simp [on_connect, h1, assign_uvc_fresh_zero, assign_uvc_fresh_ne,
      assign_other_fresh_ne, LI_SUDO_NEEDED, Signal.isThrown]

theorem toBool_false_eq_fresh (e : LI_exception) (h : e.toBool = false) :
    e = LI_exception.fresh := by
  obtain ⟨h1, h2, h3⟩ := (toBool_false_iff e).1 h
  obtain ⟨a, b, c⟩ := e
  simp only at h1 h2 h3
  subst h1 h2 h3
  rfl

/-- When the slot is non-success once the enumeration result is stored,
`update_connection` throws right after `uvc_get_device_list`. -/
theorem update_connection_dirty (s : LI_stereocamera) (env : Event)
    (h : ({ s.error with code_uvc := env.list_result } : LI_exception).toBool = true) :
    update_connection s env =
      { state := { s with error := { s.error with code_uvc := env.list_result } },
        calls := [Call.uvc_get_device_list], thrown := true } := by
  simp [update_connection, LI_exception.assign_uvc, h, Signal.isThrown]

/-- When the slot is success once the enumeration result is stored,
`update_connection` goes on to the device search and the state comparison. -/
theorem update_connection_clean (s : LI_stereocamera) (env : Event)
    (h : ({ s.error with code_uvc := env.list_result } : LI_exception).toBool = false) :
    update_connection s env =
      match (scan_devices env.devices).1 with
      | none =>
        if false == s.connected then
          { state := { s with error := LI_exception.fresh },
            calls := [Call.uvc_get_device_list] ++ (scan_devices env.devices).2
                      ++ [Call.uvc_free_device_list],
            thrown := false }
        else
          { state := { (on_disconnect { s with error := LI_exception.fresh }).state with
                       connected := false },
            calls := [Call.uvc_get_device_list] ++ (scan_devices env.devices).2
                      ++ (on_disconnect { s with error := LI_exception.fresh }).calls
                      ++ [Call.uvc_free_device_list],
            thrown := false }
      | some entry =>
        if true == s.connected then
          { state := { s with error := LI_exception.fresh },
            calls := [Call.uvc_get_device_list] ++ (scan_devices env.devices).2
                      ++ [Call.uvc_free_device_list],
            thrown := false }
        else if (on_connect { s with error := LI_exception.fresh } entry.dev env).thrown then
          { state := (on_connect { s with error := LI_exception.fresh } entry.dev env).state,
            calls := [Call.uvc_get_device_list] ++ (scan_devices env.devices).2
                      ++ (on_connect { s with error := LI_exception.fresh } entry.dev env).calls,
            thrown := true }
        else
          { state := { (on_connect { s with error := LI_exception.fresh } entry.dev env).state
                       with connected := true },
            calls := [Call.uvc_get_device_list] ++ (scan_devices env.devices).2
                      ++ (on_connect { s with error := LI_exception.fresh } entry.dev env).calls
                      ++ [Call.uvc_free_device_list],
            thrown := false } := by
  have hf := toBool_false_eq_fresh _ h
  simp only [update_connection, LI_exception.assign_uvc, h, hf, Signal.isThrown,
    Bool.false_eq_true, if_false]
  cases (scan_devices env.devices).1 <;> rfl

theorem scan_devices_no_start (ds : List DeviceEntry) :
    (scan_devices ds).2.any Call.isStart = false := by
  rw [List.any_eq_false]
  intro c hc
  have := scan_devices_no_session ds c hc
  cases c <;> simp_all [Call.isSession, Call.isStart]

/-- How one `update_connection` can end: normally, with a clean slot and the
connection state equal to what the search found; or by a throw that leaves a
non-success slot whose device code is the enumeration result; or by a throw
at `uvc_start_streaming`. -/
theorem update_connection_cases (s : LI_stereocamera) (env : Event) :
    ((update_connection s env).thrown = false ∧
      (update_connection s env).state.error = LI_exception.fresh ∧
      env.list_result = 0 ∧
      (scan_devices env.devices).1.isSome = (update_connection s env).state.connected) ∨
    ((update_connection s env).thrown = true ∧
      (update_connection s env).state.error.code_uvc = env.list_result ∧
      (update_connection s env).state.error.toBool = true) ∨
    (update_connection s env).failedAtStart = true := by
  by_cases h : ({ s.error with code_uvc := env.list_result } : LI_exception).toBool = true
  · right; left
    rw [update_connection_dirty s env h]
    exact ⟨rfl, rfl, h⟩
  · simp only [Bool.not_eq_true] at h
    have hl : env.list_result = 0 := ((toBool_false_iff _).1 h).2.1
    rw [update_connection_clean s env h]
    cases hsc : (scan_devices env.devices).1 with
    | none =>
      cases hcn : s.connected
      · left; simp [hl]
      · left; simp [hl, on_disconnect_error]
    | some entry =>
      cases hcn : s.connected
      · have hon := on_connect_fresh { s with error := LI_exception.fresh } entry.dev env rfl
        simp only [hcn] at hon
        simp only [hon]
        by_cases h1 : env.open_result = 0
        · by_cases h2 : env.handle_device = some entry.dev
          · by_cases h3 : env.ctrl_result = 0
            · by_cases h4 : env.start_result = 0
              · left; simp [h1, h2, h3, h4, hl]
              · right; right
                simp [h1, h2, h3, h4, Outcome.failedAtStart, Call.isStart]
            · right; left
              simp [h1, h2, h3, hl, LI_exception.toBool, LI_exception.fresh,
                LI_UNSUPPORTED_CAMERA_MODE, LI_SUCCESS, UVC_SUCCESS]
          · right; left
            simp [h1, h2, hl, LI_exception.toBool, LI_exception.fresh,
              LI_UNSPECIFIED, LI_SUCCESS, UVC_SUCCESS]
        · right; left
          simp [h1, hl, LI_exception.toBool, LI_exception.fresh,
            LI_SUDO_NEEDED, LI_SUCCESS, UVC_SUCCESS]
      · left; simp [hl]

/-- C6 amended: when `update_connection` is called twice in a row with the
same enumeration result and the first call did not fail at
`uvc_start_streaming`, the second call leaves every field of the controller
as the first call left it (connection state, device refs, handle, stream
control, error slot) and makes no session call (no ref, open, negotiate,
start, stop, close or unref). -/
theorem update_connection_twice_no_effect (s : LI_stereocamera) (e1 e2 : Event)
    (hlist : e2.list_result = e1.list_result) (hdevs : e2.devices = e1.devices)
    (hstart : (update_connection s e1).failedAtStart = false) :
    (update_connection (update_connection s e1).state e2).state
      = (update_connection s e1).state ∧
    (∀ c ∈ (update_connection (update_connection s e1).state e2).calls,
      c.isSession = false) ∧
    openCount (update_connection (update_connection s e1).state e2).calls = 0 := by
  have key : (update_connection (update_connection s e1).state e2).state
      = (update_connection s e1).state ∧
    (∀ c ∈ (update_connection (update_connection s e1).state e2).calls,
      c.isSession = false) := by
    rcases update_connection_cases s e1 with ⟨_, herr, hl, hfound⟩ | ⟨_, huvc, hb⟩ | hbad
    · generalize update_connection s e1 = r at herr hfound
      obtain ⟨⟨c, ud, vd, vh, vs, err⟩, calls, thr⟩ := r
      simp only at herr hfound
      subst herr
      have hclean : ({ LI_exception.fresh with code_uvc := e2.list_result }
          : LI_exception).toBool = false := by
        rw [hlist, hl]; rfl
      rw [update_connection_clean _ e2 hclean, hdevs]
      cases hsc : (scan_devices e1.devices).1 with
      | none =>
        rw [hsc] at hfound
        simp only [Option.isSome_none] at hfound
        subst hfound
        refine ⟨by simp, ?_⟩
        intro c hc
        simp only [beq_self_eq_true, if_true, List.mem_append, List.mem_singleton] at hc
        rcases hc with (rfl | hc) | rfl
        · rfl
        · exact scan_devices_no_session _ c hc
        · rfl
      | some entry =>
        rw [hsc] at hfound
        simp only [Option.isSome_some] at hfound
        subst hfound
        refine ⟨by simp, ?_⟩
        intro c hc
        simp only [beq_self_eq_true, if_true, List.mem_append, List.mem_singleton] at hc
        rcases hc with (rfl | hc) | rfl
        · rfl
        · exact scan_devices_no_session _ c hc
        · rfl
    · generalize update_connection s e1 = r at huvc hb
      obtain ⟨⟨c, ud, vd, vh, vs, ⟨a, b, o⟩⟩, calls, thr⟩ := r
      simp only at huvc hb
      subst huvc
      have hdirty : ({ (LI_exception.mk a e1.list_result o) with
          code_uvc := e2.list_result } : LI_exception).toBool = true := by
        rw [hlist]; exact hb
      rw [update_connection_dirty _ e2 hdirty]
      refine ⟨by simp [hlist], ?_⟩
      intro c hc
      simp only [List.mem_singleton] at hc
      subst hc
      rfl
    · rw [hbad] at hstart
      exact absurd hstart (by decide)
  refine ⟨key.1, key.2, ?_⟩
  unfold openCount
  rw [List.countP_eq_zero]
  intro c hc
  have := key.2 c hc
  cases c <;> simp_all [Call.isSession, Call.isOpen]

/-- Witness of C6 amended: a second identical plug event after a successful
connect changes nothing. -/
theorem update_connection_twice_no_effect_witness :
    (update_connection (update_connection demoController plugEvent).state plugEvent).state
      = (update_connection demoController plugEvent).state ∧
    (∀ c ∈ (update_connection (update_connection demoController plugEvent).state
        plugEvent).calls, c.isSession = false) ∧
    openCount (update_connection (update_connection demoController plugEvent).state
        plugEvent).calls = 0 :=
  update_connection_twice_no_effect demoController plugEvent plugEvent rfl rfl (by decide)

/-- C6 as stated fails: when `uvc_start_streaming` fails in the first call
(the handle is then held and the controller stays Disconnected), a second call
with the identical event calls `uvc_open` again, and a second call with the
same enumeration whose sub-steps succeed changes the connection state. -/
theorem update_connection_twice_reopens :
    (update_connection demoController startFailsEvent).state.uvc_handle = some 11 ∧
    (update_connection demoController startFailsEvent).state.connected = false ∧
    openCount (update_connection (update_connection demoController startFailsEvent).state
      startFailsEvent).calls = 1 ∧
    (update_connection (update_connection demoController startFailsEvent).state
      plugEvent).state.connected = true := by
  decide

theorem on_connect_fresh_connected (s : LI_stereocamera) (dev : Nat) (env : Event)
    (hs : s.error = LI_exception.fresh) :
    (on_connect s dev env).state.connected = s.connected := by
  rw [on_connect_fresh s dev env hs]
  split_ifs <;> rfl

theorem on_connect_fresh_openCount (s : LI_stereocamera) (dev : Nat) (env : Event)
    (hs : s.error = LI_exception.fresh) :
    openCount (on_connect s dev env).calls = 1 := by
  rw [on_connect_fresh s dev env hs]
  split_ifs <;> simp [openCount, Call.isOpen]

/-- A throw leaves the connection state as it was. -/
theorem update_connection_thrown_connected (s : LI_stereocamera) (env : Event)
    (h : (update_connection s env).thrown = true) :
    (update_connection s env).state.connected = s.connected := by
  by_cases hd : ({ s.error with code_uvc := env.list_result } : LI_exception).toBool = true
  · rw [update_connection_dirty s env hd]
  · simp only [Bool.not_eq_true] at hd
    rw [update_connection_clean s env hd] at h ⊢
    cases hsc : (scan_devices env.devices).1 with
    | none =>
      rw [hsc] at h
      cases hcn : s.connected <;> simp [hcn] at h
    | some entry =>
      rw [hsc] at h
      have hc := on_connect_fresh_connected { s with error := LI_exception.fresh }
        entry.dev env rfl
      cases hcn : s.connected
      · simp only [hcn] at h hc ⊢
        generalize on_connect _ entry.dev env = oc at h hc ⊢
        cases hth : oc.thrown
        · simp [hth] at h
        · simp [hth, hc]
      · simp [hcn] at h

/-- A throw at `uvc_start_streaming` leaves only the device code of the slot
non-success. -/
theorem update_connection_failedAtStart_slot (s : LI_stereocamera) (env : Event)
    (h : (update_connection s env).failedAtStart = true) :
    (update_connection s env).state.error.code_usb = 0 ∧
    (update_connection s env).state.error.code_other = 0 := by
  by_cases hd : ({ s.error with code_uvc := env.list_result } : LI_exception).toBool = true
  · rw [update_connection_dirty s env hd] at h
    simp [Outcome.failedAtStart, Call.isStart] at h
  · simp only [Bool.not_eq_true] at hd
    rw [update_connection_clean s env hd] at h ⊢
    cases hsc : (scan_devices env.devices).1 with
    | none =>
      rw [hsc] at h
      cases hcn : s.connected <;> simp [hcn, Outcome.failedAtStart] at h
    | some entry =>
      rw [hsc] at h
      have hon := on_connect_fresh { s with error := LI_exception.fresh } entry.dev env rfl
      have hns := scan_devices_no_start env.devices
      cases hcn : s.connected
      · simp only [hcn] at h hon ⊢
        simp only [hon] at h ⊢
        by_cases h1 : env.open_result = 0
        · by_cases h2 : env.handle_device = some entry.dev
          · by_cases h3 : env.ctrl_result = 0
            · by_cases h4 : env.start_result = 0
              · simp [h1, h2, h3, h4, Outcome.failedAtStart] at h
              · simp [h1, h2, h3, h4, LI_exception.fresh, LIBUSB_SUCCESS, LI_SUCCESS]
            · simp only [h1, h2, h3, ne_eq, not_true_eq_false, not_false_eq_true, if_true,
                if_false, Outcome.failedAtStart, Bool.true_and, List.any_append, hns,
              (show (true == false) = false from rfl), Bool.false_eq_true,
                List.any_cons, List.any_nil, Call.isStart, Bool.or_false, Bool.false_or] at h
          · simp only [h1, h2, ne_eq, not_true_eq_false, not_false_eq_true, if_true,
              if_false, Outcome.failedAtStart, Bool.true_and, List.any_append, hns,
              (show (true == false) = false from rfl), Bool.false_eq_true,
              List.any_cons, List.any_nil, Call.isStart, Bool.or_false, Bool.false_or] at h
        · simp only [h1, ne_eq, not_true_eq_false, not_false_eq_true, if_true,
            if_false, Outcome.failedAtStart, Bool.true_and, List.any_append, hns,
              (show (true == false) = false from rfl), Bool.false_eq_true,
            List.any_cons, List.any_nil, Call.isStart, Bool.or_false, Bool.false_or] at h
      · simp [hcn, Outcome.failedAtStart] at h

/-- C7 amended: when `update_connection` throws on a Disconnected controller
(as it does when a sub-step of the connect sequence fails), the controller is
still Disconnected afterwards; and when the throw came from
`uvc_start_streaming`, the next `update_connection` whose enumeration succeeds
and finds the target calls `uvc_open` again, and reaches Connected without
throwing when its sub-steps succeed. -/
theorem failed_connect_stays_disconnected (s : LI_stereocamera) (e1 e2 : Event)
    (entry : DeviceEntry) (hdisc : s.connected = false)
    (hfail : (update_connection s e1).thrown = true) :
    (update_connection s e1).state.connected = false ∧
    ((update_connection s e1).failedAtStart = true →
      e2.list_result = UVC_SUCCESS → (scan_devices e2.devices).1 = some entry →
      openCount (update_connection (update_connection s e1).state e2).calls = 1 ∧
      (e2.open_result = UVC_SUCCESS → e2.handle_device = some entry.dev →
        e2.ctrl_result = UVC_SUCCESS → e2.start_result = UVC_SUCCESS →
        (update_connection (update_connection s e1).state e2).thrown = false ∧
        (update_connection (update_connection s e1).state e2).state.connected = true)) := by
  have hconn : (update_connection s e1).state.connected = false := by
    rw [update_connection_thrown_connected s e1 hfail, hdisc]
  refine ⟨hconn, fun hstart hl hsc => ?_⟩
  obtain ⟨hu, ho⟩ := update_connection_failedAtStart_slot s e1 hstart
  generalize update_connection s e1 = r at hconn hu ho
  obtain ⟨⟨c, ud, vd, vh, vs, ⟨a, b, o⟩⟩, calls, thr⟩ := r
  simp only at hconn hu ho
  subst hconn hu ho
  simp only [UVC_SUCCESS] at hl
  have hclean : ({ (LI_exception.mk 0 b 0) with code_uvc := e2.list_result }
      : LI_exception).toBool = false := by
    rw [hl]; rfl
  rw [update_connection_clean _ e2 hclean, hsc]
  have hsc0 := openCount_scan_devices e2.devices
  constructor
  · have hcnt := on_connect_fresh_openCount
      { connected := false, usb_device := ud, uvc_device := vd, uvc_handle := vh,
        uvc_stream := vs, error := LI_exception.fresh } entry.dev e2 rfl
    simp only [openCount] at hcnt hsc0 ⊢
    generalize on_connect _ entry.dev e2 = oc at hcnt ⊢
    cases hth : oc.thrown <;> simp [List.countP_append, hcnt, hsc0, Call.isOpen]
  · intro h1 h2 h3 h4
    have hon := on_connect_fresh
      { connected := false, usb_device := ud, uvc_device := vd, uvc_handle := vh,
        uvc_stream := vs, error := LI_exception.fresh } entry.dev e2 rfl
    simp only [UVC_SUCCESS] at h1 h3 h4
    simp [hon, h1, h2, h3, h4]

/-- Witness of C7 amended: after `uvc_start_streaming` failed, the next plug
event opens the device again and connects. -/
theorem failed_connect_stays_disconnected_witness :
    (update_connection demoController startFailsEvent).state.connected = false ∧
    openCount (update_connection (update_connection demoController startFailsEvent).state
      plugEvent).calls = 1 ∧
    (update_connection (update_connection demoController startFailsEvent).state
      plugEvent).state.connected = true :=
  have h := failed_connect_stays_disconnected demoController startFailsEvent plugEvent
    targetEntry rfl (by decide)
  have h2 := h.2 (by decide) rfl (by decide)
  ⟨h.1, h2.1, (h2.2 rfl rfl rfl rfl).2⟩

/-- C7 as stated fails: after `uvc_open` failed on a Disconnected controller
with the target enumerated, the next `update_connection`, with the target
enumerated again and every call succeeding, throws right after
`uvc_get_device_list`: it does not call `uvc_open` and stays Disconnected. -/
theorem failed_open_not_retried :
    demoController.connected = false ∧
    targetPresent openFailsEvent.devices = true ∧
    (update_connection demoController openFailsEvent).thrown = true ∧
    openCount (update_connection demoController openFailsEvent).calls = 1 ∧
    (update_connection demoController openFailsEvent).state.connected = false ∧
    (update_connection demoController openFailsEvent).state.error.code_other
      = LI_SUDO_NEEDED ∧
    plugEvent.allSucceed = true ∧
    (update_connection (update_connection demoController openFailsEvent).state
      plugEvent).calls = [Call.uvc_get_device_list] ∧
    openCount (update_connection (update_connection demoController openFailsEvent).state
      plugEvent).calls = 0 ∧
    (update_connection (update_connection demoController openFailsEvent).state
      plugEvent).state.connected = false := by
  decide

/-! ## Theorems on the frame pipeline: buffers and the shared error slot -/

theorem assign_other_fst (e : LI_exception) (c : Int) :
    (e.assign_other c).1 = { e with code_other := c } := by
  simp only [LI_exception.assign_other]
  split <;> rfl

/-- The frame callback writes the application code of the slot only. -/
theorem frame_callback_keeps_lower_codes (frame : RawFrame) (s : LI_stereocamera)
    (env : FrameEnv) :
    (frame_callback frame s env).state.error.code_usb = s.error.code_usb ∧
    (frame_callback frame s env).state.error.code_uvc = s.error.code_uvc := by
  unfold frame_callback
  split
  · simp only []
    split
    · simp [assign_other_fst]
    · split <;> simp [assign_other_fst]
  · simp [assign_other_fst]

/-- C8, the code at a failing input: both buffers are allocated, both
conversions succeed and `process_frame` returns `LI_UNSPECIFIED`; the
assignment of that result throws and neither buffer is freed. Likewise, when
only the second allocation fails, the first buffer is never freed. -/
theorem frame_callback_process_failure_leaks :
    processFailsFrameEnv.greyLeft = some 100 ∧
    processFailsFrameEnv.greyRight = some 200 ∧
    (frame_callback demoFrame streamingController processFailsFrameEnv).calls
      = [Call.uvc_allocate_frame 307200, Call.uvc_allocate_frame 307200,
         Call.uvc_yuyv2y, Call.uvc_yuyv2uv, Call.process_frame] ∧
    (frame_callback demoFrame streamingController processFailsFrameEnv).thrown = true ∧
    freeCount 100 (frame_callback demoFrame streamingController processFailsFrameEnv).calls
      = 0 ∧
    freeCount 200 (frame_callback demoFrame streamingController processFailsFrameEnv).calls
      = 0 ∧
    allocFailsFrameEnv.greyLeft = some 100 ∧
    freeCount 100 (frame_callback demoFrame streamingController allocFailsFrameEnv).calls
      = 0 := by
  decide

/-- C9 as stated fails: on a streaming controller whose slot holds the device
code of a failed enumeration, a frame whose allocation fails is followed by a
frame in which every step succeeds, and that second invocation still throws at
the assignment of the processing result: it presents nothing, frees nothing
and leaves the slot non-success. -/
theorem frame_failure_propagates_with_stale_code :
    (update_connection streamingController listFailsEvent).state.connected = true ∧
    (update_connection streamingController listFailsEvent).state.error
      = { code_usb := 0, code_uvc := -11, code_other := 0 } ∧
    (frame_callback demoFrame (update_connection streamingController listFailsEvent).state
      allocFailsFrameEnv).thrown = true ∧
    goodFrameEnv.allSucceed = true ∧
    (frame_callback demoFrame
      (frame_callback demoFrame (update_connection streamingController listFailsEvent).state
        allocFailsFrameEnv).state goodFrameEnv).thrown = true ∧
    (frame_callback demoFrame
      (frame_callback demoFrame (update_connection streamingController listFailsEvent).state
        allocFailsFrameEnv).state goodFrameEnv).state.error.toBool = true ∧
    freeTotal (frame_callback demoFrame
      (frame_callback demoFrame (update_connection streamingController listFailsEvent).state
        allocFailsFrameEnv).state goodFrameEnv).calls = 0 := by
  decide

/-- C9 amended: when the transport and device codes of the shared slot are
success before the first of two consecutive invocations, the first fails at
any step, and in the second both allocations, both conversions and the
Processing stage succeed, then the second invocation does not throw, calls the
Processing stage once, presents, frees both buffers once each and leaves the
slot at success. -/
theorem frame_failure_does_not_propagate (f1 f2 : RawFrame) (s : LI_stereocamera)
    (env1 env2 : FrameEnv)
    (husb : s.error.code_usb = LIBUSB_SUCCESS) (huvc : s.error.code_uvc = UVC_SUCCESS)
    (_hfail : (frame_callback f1 s env1).thrown = true)
    (hok : env2.allSucceed = true) :
    ∃ left right, env2.greyLeft = some left ∧ env2.greyRight = some right ∧
      (frame_callback f2 (frame_callback f1 s env1).state env2).thrown = false ∧
      (frame_callback f2 (frame_callback f1 s env1).state env2).state.error
        = LI_exception.fresh ∧
      (frame_callback f2 (frame_callback f1 s env1).state env2).calls
        = [Call.uvc_allocate_frame ((f2.width * f2.height) % 2 ^ 32),
           Call.uvc_allocate_frame ((f2.width * f2.height) % 2 ^ 32),
           Call.uvc_yuyv2y, Call.uvc_yuyv2uv, Call.process_frame,
           Call.imshow "Left", Call.imshow "Right", Call.cvWaitKey 10,
           Call.uvc_free_frame left, Call.uvc_free_frame right] := by
  obtain ⟨h1, h2⟩ := frame_callback_keeps_lower_codes f1 s env1
  rw [husb] at h1
  rw [huvc] at h2
  generalize (frame_callback f1 s env1).state = s1 at h1 h2
  obtain ⟨c, ud, vd, vh, vs, ⟨a, b, o⟩⟩ := s1
  simp only [LIBUSB_SUCCESS, UVC_SUCCESS] at h1 h2
  subst h1 h2
  obtain ⟨gl, gr, y, uv, cl, nl⟩ := env2
  simp only [FrameEnv.allSucceed, Bool.and_eq_true, beq_iff_eq, Option.isSome_iff_exists,
    UVC_SUCCESS, LI_SUCCESS] at hok
  obtain ⟨⟨⟨⟨⟨left, hl⟩, ⟨right, hr⟩⟩, hy⟩, huv⟩, hp⟩ := hok
  subst hl hr hy huv
  refine ⟨left, right, rfl, rfl, ?_⟩
  simp [frame_callback, hp, LI_exception.of_uvc, LI_exception.assign_other,
    LI_exception.toBool, LI_exception.fresh, Signal.isThrown, LIBUSB_SUCCESS, UVC_SUCCESS,
    LI_SUCCESS]

/-- Witness of C9 amended: on a streaming controller with a clean slot, a frame
whose processing fails is followed by a frame that runs to the end. -/
theorem frame_failure_does_not_propagate_witness :
    ∃ left right, goodFrameEnv.greyLeft = some left ∧ goodFrameEnv.greyRight = some right ∧
      (frame_callback demoFrame
        (frame_callback demoFrame streamingController processFailsFrameEnv).state
        goodFrameEnv).thrown = false ∧
      (frame_callback demoFrame
        (frame_callback demoFrame streamingController processFailsFrameEnv).state
        goodFrameEnv).state.error = LI_exception.fresh ∧
      (frame_callback demoFrame
        (frame_callback demoFrame streamingController processFailsFrameEnv).state
        goodFrameEnv).calls
        = [Call.uvc_allocate_frame ((demoFrame.width * demoFrame.height) % 2 ^ 32),
           Call.uvc_allocate_frame ((demoFrame.width * demoFrame.height) % 2 ^ 32),
           Call.uvc_yuyv2y, Call.uvc_yuyv2uv, Call.process_frame,
           Call.imshow "Left", Call.imshow "Right", Call.cvWaitKey 10,
           Call.uvc_free_frame left, Call.uvc_free_frame right] :=
  frame_failure_does_not_propagate demoFrame demoFrame streamingController
    processFailsFrameEnv goodFrameEnv (by decide) (by decide) (by decide) (by decide)

/-- C10: whenever either of the two allocations fails, `frame_callback` stores
`LI_UNABLE_TO_ALLOCATE_FRAME` (4) as the application code of the shared slot,
which then reports the application domain with code 4, throws, and has made
the two allocation calls only: no conversion, no processing, no presentation
(and no free). -/
theorem allocation_failure_recorded (frame : RawFrame) (s : LI_stereocamera)
    (env : FrameEnv) (h : env.greyLeft = none ∨ env.greyRight = none) :
    (frame_callback frame s env).thrown = true ∧
    (frame_callback frame s env).state.error.code_other = LI_UNABLE_TO_ALLOCATE_FRAME ∧
    (frame_callback frame s env).state.error.error_category = "[LISTEREO]" ∧
    (frame_callback frame s env).state.error.error_code = 4 ∧
    (frame_callback frame s env).calls
      = [Call.uvc_allocate_frame ((frame.width * frame.height) % 2 ^ 32),
         Call.uvc_allocate_frame ((frame.width * frame.height) % 2 ^ 32)] ∧
    (∀ c ∈ (frame_callback frame s env).calls, c.isFrameWork = false) := by
  have hfc : frame_callback frame s env =
      { state := { s with error := { s.error with
                     code_other := LI_UNABLE_TO_ALLOCATE_FRAME } },
        calls := [Call.uvc_allocate_frame ((frame.width * frame.height) % 2 ^ 32),
                  Call.uvc_allocate_frame ((frame.width * frame.height) % 2 ^ 32)],
        thrown := true } := by
    obtain ⟨gl, gr, y, uv, cl, nl⟩ := env
    simp only at h
    have hthrow : ∀ e : LI_exception,
        e.assign_other LI_UNABLE_TO_ALLOCATE_FRAME
          = ({ e with code_other := LI_UNABLE_TO_ALLOCATE_FRAME }, Signal.thrown) := by
      intro e
      simp [LI_exception.assign_other, LI_exception.toBool, LI_UNABLE_TO_ALLOCATE_FRAME,
        LI_SUCCESS]
    rcases h with h | h
    · subst h
      simp [frame_callback, hthrow, Signal.isThrown]
    · subst h
      cases gl <;> simp [frame_callback, hthrow, Signal.isThrown]
  rw [hfc]
  refine ⟨rfl, rfl, ?_, ?_, rfl, ?_⟩
  · simp [LI_exception.error_category, LI_UNABLE_TO_ALLOCATE_FRAME, LI_SUCCESS]
  · simp [LI_exception.error_code, LI_UNABLE_TO_ALLOCATE_FRAME, LI_SUCCESS]
  · intro c hc
    simp only [List.mem_cons, List.mem_singleton, List.mem_nil_iff, or_false] at hc
    rcases hc with rfl | rfl <;> rfl

/-- Witness of C10: the second allocation fails on a streaming controller. -/
theorem allocation_failure_recorded_witness :
    (frame_callback demoFrame streamingController allocFailsFrameEnv).thrown = true ∧
    (frame_callback demoFrame streamingController allocFailsFrameEnv).state.error.code_other
      = LI_UNABLE_TO_ALLOCATE_FRAME :=
  have h := allocation_failure_recorded demoFrame streamingController allocFailsFrameEnv
    (Or.inr rfl)
  ⟨h.1, h.2.1⟩

/-! ## Theorems on the disconnect sequence -/

/-- What `on_disconnect` does on every session state: it first calls
`uvc_stop_streaming` with the handle as it is (set or not), ends with handle
and both device refs unset and the stream block zeroed, closes a held handle
once and unrefs a held device once and nothing else; run a second time in a
row it closes and unrefs nothing and leaves the state of the first run. -/
theorem on_disconnect_releases_held (s : LI_stereocamera) :
    (on_disconnect s).thrown = false ∧
    (on_disconnect s).calls.head? = some (Call.uvc_stop_streaming s.uvc_handle) ∧
    (on_disconnect s).state.uvc_handle = none ∧
    (on_disconnect s).state.usb_device = none ∧
    (on_disconnect s).state.uvc_device = none ∧
    (on_disconnect s).state.uvc_stream = 0 ∧
    (∀ h, closeCount h (on_disconnect s).calls = if s.uvc_handle = some h then 1 else 0) ∧
    (∀ d, unrefCount d (on_disconnect s).calls = if s.uvc_device = some d then 1 else 0) ∧
    (on_disconnect (on_disconnect s).state).state = (on_disconnect s).state ∧
    (∀ c ∈ (on_disconnect (on_disconnect s).state).calls, c.isRelease = false) := by
  obtain ⟨c, ud, vd, vh, vs, err⟩ := s
  cases ud <;> cases vd <;> cases vh <;>
    simp [on_disconnect, closeCount, unrefCount, Call.isRelease, List.count_cons,
      List.count_nil]

/-- C11, the code at a failing input: on a controller that never opened the
device (handle and both device refs unset) `on_disconnect` calls
`uvc_stop_streaming` on the unset handle, and so does the destructor; a second
`on_disconnect` in a row after a real disconnect does the same. -/
theorem on_disconnect_stops_unset_handle :
    demoController.uvc_handle = none ∧
    demoController.usb_device = none ∧
    demoController.uvc_device = none ∧
    (on_disconnect demoController).calls = [Call.uvc_stop_streaming none] ∧
    (destructor demoController).calls
      = [Call.uvc_stop_streaming none, Call.uvc_exit,
         Call.libusb_hotplug_deregister_callback, Call.libusb_exit] ∧
    (on_disconnect streamingController).calls
      = [Call.uvc_stop_streaming (some 11), Call.uvc_close 11, Call.uvc_unref_device 7] ∧
    (on_disconnect (on_disconnect streamingController).state).calls
      = [Call.uvc_stop_streaming none] := by
  decide

/-! ## Theorems on the connect sequence -/

theorem assign_other_ne (e : LI_exception) (c : Int) (h : c ≠ 0) :
    e.assign_other c = ({ e with code_other := c }, Signal.thrown) := by
  have h2 : ¬ 0 = c := fun h3 => h h3.symm
  simp [LI_exception.assign_other, LI_exception.toBool, LI_SUCCESS, h2]

theorem assign_uvc_ne (e : LI_exception) (c : Int) (h : c ≠ 0) :
    e.assign_uvc c = ({ e with code_uvc := c }, Signal.thrown) := by
  have h2 : ¬ 0 = c := fun h3 => h h3.symm
  simp [LI_exception.assign_uvc, LI_exception.toBool, UVC_SUCCESS, h2]

theorem assign_uvc_isThrown (e : LI_exception) (c : Int) :
    (e.assign_uvc c).2.isThrown = ({ e with code_uvc := c } : LI_exception).toBool := by
  simp only [LI_exception.assign_uvc]
  split <;> simp_all [Signal.isThrown]

/-- When `uvc_open` fails, `on_connect` records `LI_SUDO_NEEDED` and throws
right after the open call, whatever the slot held. -/
theorem on_connect_open_fails (s : LI_stereocamera) (dev : Nat) (env : Event)
    (h : env.open_result ≠ 0) :
    on_connect s dev env =
      { state := { s with uvc_device := some dev,
                          error := { s.error with code_other := LI_SUDO_NEEDED } },
        calls := [Call.uvc_ref_device dev, Call.uvc_open dev], thrown := true } := by
  simp [on_connect, assign_uvc_fresh_ne _ h, assign_other_ne, LI_SUDO_NEEDED, Signal.isThrown]

/-- When `uvc_open` succeeds but the handle does not belong to the device,
`on_connect` records `LI_UNSPECIFIED` and throws before the negotiation. -/
theorem on_connect_handle_mismatch (s : LI_stereocamera) (dev : Nat) (env : Event)
    (h1 : env.open_result = 0) (h2 : env.handle_device ≠ some dev) :
    on_connect s dev env =
      { state := { s with uvc_device := some dev, uvc_handle := some env.handle,
                          error := { s.error with code_other := LI_UNSPECIFIED } },
        calls := [Call.uvc_ref_device dev, Call.uvc_open dev,
                  Call.uvc_get_device (some env.handle)], thrown := true } := by
  have h2b : ¬ some dev = env.handle_device := fun h => h2 h.symm
  simp [on_connect, h1, h2b, assign_uvc_fresh_zero, assign_other_ne, LI_UNSPECIFIED,
    Signal.isThrown]

/-- When open and the handle check succeed but the negotiation fails,
`on_connect` records `LI_UNSUPPORTED_CAMERA_MODE` and throws right after the
negotiation call, whatever the slot held. -/
theorem on_connect_negotiate_fails (s : LI_stereocamera) (dev : Nat) (env : Event)
    (h1 : env.open_result = 0) (h2 : env.handle_device = some dev)
    (h3 : env.ctrl_result ≠ 0) :
    on_connect s dev env =
      { state := { s with uvc_device := some dev, uvc_handle := some env.handle,
                          usb_device := env.usb_device,
                          error := { s.error with code_other := LI_UNSUPPORTED_CAMERA_MODE } },
        calls := [Call.uvc_ref_device dev, Call.uvc_open dev,
                  Call.uvc_get_device (some env.handle),
                  Call.libusb_get_device (some env.handle),
                  Call.uvc_get_stream_ctrl_format_size (some env.handle) WIDTH HEIGHT FPS],
        thrown := true } := by
  simp [on_connect, h1, h2, assign_uvc_fresh_zero, assign_uvc_fresh_ne _ h3, assign_other_ne,
    LI_UNSUPPORTED_CAMERA_MODE, Signal.isThrown]

/-- When the first three sub-steps succeed but `uvc_start_streaming` fails,
`on_connect` throws at the assignment of its result. -/
theorem on_connect_start_fails (s : LI_stereocamera) (dev : Nat) (env : Event)
    (h1 : env.open_result = 0) (h2 : env.handle_device = some dev)
    (h3 : env.ctrl_result = 0) (h4 : env.start_result ≠ 0) :
    (on_connect s dev env).thrown = true := by
  simp [on_connect, h1, h2, h3, assign_uvc_fresh_zero, assign_uvc_ne _ _ h4, Signal.isThrown]

/-- A failing sub-step makes `on_connect` throw, whatever the slot held. -/
theorem on_connect_fails_thrown (s : LI_stereocamera) (dev : Nat) (env : Event)
    (h : env.connectFails dev = true) :
    (on_connect s dev env).thrown = true := by
  by_cases h1 : env.open_result = 0
  · by_cases h2 : env.handle_device = some dev
    · by_cases h3 : env.ctrl_result = 0
      · by_cases h4 : env.start_result = 0
        · simp [Event.connectFails, h1, h2, h3, h4, UVC_SUCCESS] at h
        · exact on_connect_start_fails s dev env h1 h2 h3 h4
      · rw [on_connect_negotiate_fails s dev env h1 h2 h3]
    · rw [on_connect_handle_mismatch s dev env h1 h2]
  · rw [on_connect_open_fails s dev env h1]

/-- C12: in `on_connect` the first failing sub-step is terminal, whatever the
slot held and whatever the library answers. If `uvc_open` fails the slot
records `LI_SUDO_NEEDED` (application domain) and only the ref and the open
call were made: no negotiation, no start of streaming, no tuning. If open
succeeds (with the handle belonging to the device) and the negotiation fails,
the slot records `LI_UNSUPPORTED_CAMERA_MODE` and `uvc_start_streaming` and the
tuning calls are not made. Whenever a sub-step fails `on_connect` throws, and
an `update_connection` that reached it on a Disconnected controller throws
too and leaves the controller Disconnected. -/
theorem on_connect_first_failure_terminal (s : LI_stereocamera) (dev : Nat) (env : Event)
    (entry : DeviceEntry) :
    (env.open_result ≠ UVC_SUCCESS →
      (on_connect s dev env).thrown = true ∧
      (on_connect s dev env).state.error.code_other = LI_SUDO_NEEDED ∧
      (on_connect s dev env).state.error.error_category = "[LISTEREO]" ∧
      (on_connect s dev env).calls = [Call.uvc_ref_device dev, Call.uvc_open dev] ∧
      (∀ c ∈ (on_connect s dev env).calls,
        c.isNegotiate = false ∧ c.isStart = false ∧ c.isTuning = false)) ∧
    (env.open_result = UVC_SUCCESS → env.handle_device = some dev →
      env.ctrl_result ≠ UVC_SUCCESS →
      (on_connect s dev env).thrown = true ∧
      (on_connect s dev env).state.error.code_other = LI_UNSUPPORTED_CAMERA_MODE ∧
      (on_connect s dev env).state.error.error_category = "[LISTEREO]" ∧
      (∀ c ∈ (on_connect s dev env).calls, c.isStart = false ∧ c.isTuning = false)) ∧
    (env.connectFails dev = true → (on_connect s dev env).thrown = true) ∧
    (s.connected = false → (s.error.assign_uvc env.list_result).2.isThrown = false →
      (scan_devices env.devices).1 = some entry → env.connectFails entry.dev = true →
      (update_connection s env).thrown = true ∧
      (update_connection s env).state.connected = false) := by
  refine ⟨fun h => ?_, fun h1 h2 h3 => ?_, on_connect_fails_thrown s dev env, ?_⟩
  · rw [on_connect_open_fails s dev env h]
    refine ⟨rfl, rfl, ?_, rfl, ?_⟩
    · simp [LI_exception.error_category, LI_SUDO_NEEDED, LI_SUCCESS]
    · intro c hc
      simp only [List.mem_cons, List.mem_singleton, List.mem_nil_iff, or_false] at hc
      rcases hc with rfl | rfl <;> exact ⟨rfl, rfl, rfl⟩
  · rw [on_connect_negotiate_fails s dev env h1 h2 h3]
    refine ⟨rfl, rfl, ?_, ?_⟩
    · simp [LI_exception.error_category, LI_UNSUPPORTED_CAMERA_MODE, LI_SUCCESS]
    · intro c hc
      simp only [List.mem_cons, List.mem_singleton, List.mem_nil_iff, or_false] at hc
      rcases hc with rfl | rfl | rfl | rfl | rfl <;> exact ⟨rfl, rfl⟩
  · intro hdisc hlist hsc hfail
    rw [assign_uvc_isThrown] at hlist
    have hthrown : (update_connection s env).thrown = true := by
      rw [update_connection_clean s env hlist, hsc]
      have := on_connect_fails_thrown { s with error := LI_exception.fresh } entry.dev env hfail
      simp only [hdisc] at this
      simp [hdisc, this]
    exact ⟨hthrown, by rw [update_connection_thrown_connected s env hthrown, hdisc]⟩

/-- Witness of C12: `uvc_open` fails on the constructed controller. -/
theorem on_connect_first_failure_terminal_witness :
    (on_connect demoController 7 openFailsEvent).thrown = true ∧
    (on_connect demoController 7 openFailsEvent).state.error.code_other = LI_SUDO_NEEDED ∧
    (on_connect demoController 7 negotiateFailsEvent).state.error.code_other
      = LI_UNSUPPORTED_CAMERA_MODE ∧
    (update_connection demoController negotiateFailsEvent).thrown = true ∧
    (update_connection demoController negotiateFailsEvent).state.connected = false :=
  have h := on_connect_first_failure_terminal demoController 7 openFailsEvent targetEntry
  have h2 := on_connect_first_failure_terminal demoController 7 negotiateFailsEvent targetEntry
  have h3 := h.1 (by decide)
  have h4 := h2.2.1 rfl rfl (by decide)
  have h5 := h2.2.2.2 rfl (by decide) (by decide) (by decide)
  ⟨h.2.2.1 (by decide), h3.2.1, h4.2.1, h5.1, h5.2⟩

end LIStereo
